import Mathlib

/-!
Verification of the provider-adapter core of a single-page research
application (file `src/services/ai.ts`).  The adapter normalizes two AI
provider calling conventions into one contract
`performResearch(config) -> ResearchResult`.

The embedding models:
  * JSON values (`JsonVal`) and a faithful `JSON.parse` (`jsonParse`),
    including the JSON grammar restrictions (no leading zeros, mandatory
    digits after a decimal point, string escapes, whole-input consumption);
  * JavaScript object-literal semantics: an object is an ordered list of
    key/value pairs, property assignment (`objAssign`) replaces an existing
    key in place or appends, and object spread (`spreadPairs`) enumerates
    the own enumerable properties of the spread value;
  * the two provider paths and the top-level dispatcher, with the network
    call supplied as an environment function from the built request to an
    `Except` outcome, and thrown JavaScript values modelled as `ThrownValue`
    (an optional nested `error.message` and an optional `message`).
-/

/-- A JSON value as produced by JavaScript's JSON.parse: object fields are an
ordered association list, numbers are modelled as rationals. -/
inductive JsonVal where
  | null
  | bool (b : Bool)
  | num (q : Rat)
  | str (s : String)
  | arr (elems : List JsonVal)
  | obj (fields : List (String × JsonVal))

/-- JavaScript property assignment on an object literal under construction:
if the key already exists its value is replaced in place (keeping the key's
position), otherwise the pair is appended. -/
def objAssign (base : List (String × JsonVal)) (k : String) (v : JsonVal) :
    List (String × JsonVal) :=
  if base.any (fun p => p.1 == k) then
    base.map (fun p => if p.1 == k then (k, v) else p)
  else
    base ++ [(k, v)]

/-- Property lookup on a JavaScript object modelled as an ordered
association list. -/
def jsLookup : List (String × JsonVal) → String → Option JsonVal
  | [], _ => none
  | p :: ps, key => if p.1 == key then some p.2 else jsLookup ps key

/-- The own enumerable properties contributed by spreading a value into an
object literal: objects contribute their fields, arrays and strings
contribute index-keyed entries, primitives contribute nothing. -/
def spreadPairs : JsonVal → List (String × JsonVal)
  | .obj fields => fields
  | .arr xs => xs.enum.map (fun p => (toString p.1, p.2))
  | .str s => s.data.enum.map (fun p => (toString p.1, JsonVal.str (String.singleton p.2)))
  | _ => []

/-- The object literal `\x7b query: q, ...parsed \x7d` built by both provider
paths: the `query` property is written first, then the parsed model value is
spread over it (so a `query` key in the parsed value overwrites it). -/
def buildResult (q : String) (parsed : JsonVal) : List (String × JsonVal) :=
  (spreadPairs parsed).foldl (fun acc p => objAssign acc p.1 p.2) [(("query" : String), JsonVal.str q)]

/-- The left-brace character, code point 123. -/
def lbrace : Char := Char.ofNat 123

/-- The right-brace character, code point 125. -/
def rbrace : Char := Char.ofNat 125

/-- JSON whitespace characters. -/
def isJsonWs (c : Char) : Bool := c = ' ' || c = '\t' || c = '\n' || c = '\r'

/-- Drop leading JSON whitespace. -/
def skipWs : List Char → List Char
  | [] => []
  | c :: cs => if isJsonWs c then skipWs cs else c :: cs

/-- Value of one hexadecimal digit, if the character is one. -/
def hexDigitVal (c : Char) : Option Nat :=
  if '0' ≤ c ∧ c ≤ '9' then some (c.toNat - 48)
  else if 'a' ≤ c ∧ c ≤ 'f' then some (c.toNat - 87)
  else if 'A' ≤ c ∧ c ≤ 'F' then some (c.toNat - 55)
  else none

/-- Parse the body of a JSON string literal (the opening quote already
consumed), returning the decoded string and the rest of the input.  Handles
the JSON escape sequences and rejects raw control characters. -/
def parseStringBody : List Char → String → Option (String × List Char)
  | [], _ => none
  | '"' :: cs, acc => some (acc, cs)
  | '\\' :: '"' :: cs, acc => parseStringBody cs (acc.push '"')
  | '\\' :: '\\' :: cs, acc => parseStringBody cs (acc.push '\\')
  | '\\' :: '/' :: cs, acc => parseStringBody cs (acc.push '/')
  | '\\' :: 'b' :: cs, acc => parseStringBody cs (acc.push (Char.ofNat 8))
  | '\\' :: 'f' :: cs, acc => parseStringBody cs (acc.push (Char.ofNat 12))
  | '\\' :: 'n' :: cs, acc => parseStringBody cs (acc.push '\n')
  | '\\' :: 'r' :: cs, acc => parseStringBody cs (acc.push '\r')
  | '\\' :: 't' :: cs, acc => parseStringBody cs (acc.push '\t')
  | '\\' :: 'u' :: h1 :: h2 :: h3 :: h4 :: cs, acc =>
    match hexDigitVal h1, hexDigitVal h2, hexDigitVal h3, hexDigitVal h4 with
    | some a, some b, some c, some d =>
      parseStringBody cs (acc.push (Char.ofNat (((a * 16 + b) * 16 + c) * 16 + d)))
    | _, _, _, _ => none
  | '\\' :: _, _ => none
  | c :: cs, acc => if c.toNat < 32 then none else parseStringBody cs (acc.push c)

/-- Split a leading run of decimal digits from the input. -/
def takeDigits : List Char → List Char × List Char
  | [] => ([], [])
  | c :: cs =>
    if c.isDigit then
      let r := takeDigits cs
      (c :: r.1, r.2)
    else ([], c :: cs)

/-- Value of a digit run as a natural number. -/
def digitsToNat (ds : List Char) : Nat := ds.foldl (fun n c => 10 * n + (c.toNat - 48)) 0

/-- Parse a JSON number (optional minus sign, integer part without leading
zeros, optional fraction, optional exponent) as a rational. -/
def parseNumberFrom (cs : List Char) : Option (Rat × List Char) :=
  let signSplit : Bool × List Char :=
    match cs with
    | '-' :: r => (true, r)
    | _ => (false, cs)
  let neg := signSplit.1
  let cs1 := signSplit.2
  let ipair := takeDigits cs1
  let ids := ipair.1
  let cs2 := ipair.2
  if ids.isEmpty then none
  else if ids.length > 1 ∧ ids.headD 'x' = '0' then none
  else
    let fracSplit : List Char × List Char × Bool :=
      match cs2 with
      | '.' :: r =>
        let fp := takeDigits r
        if fp.1.isEmpty then ([], cs2, false) else (fp.1, fp.2, true)
      | _ => ([], cs2, true)
    let fds := fracSplit.1
    let cs3 := fracSplit.2.1
    if fracSplit.2.2 = false then none
    else
      let expSplit : Bool × List Char × List Char × Bool :=
        match cs3 with
        | 'e' :: r =>
          let sgn : Bool × List Char :=
            match r with
            | '+' :: rr => (false, rr)
            | '-' :: rr => (true, rr)
            | _ => (false, r)
          let ep := takeDigits sgn.2
          if ep.1.isEmpty then (false, [], cs3, false) else (sgn.1, ep.1, ep.2, true)
        | 'E' :: r =>
          let sgn : Bool × List Char :=
            match r with
            | '+' :: rr => (false, rr)
            | '-' :: rr => (true, rr)
            | _ => (false, r)
          let ep := takeDigits sgn.2
          if ep.1.isEmpty then (false, [], cs3, false) else (sgn.1, ep.1, ep.2, true)
        | _ => (false, [], cs3, true)
      if expSplit.2.2.2 = false then none
      else
        let eneg := expSplit.1
        let eds := expSplit.2.1
        let cs4 := expSplit.2.2.1
        let e := digitsToNat eds
        let fl := fds.length
        let baseNum : Nat := digitsToNat ids * 10 ^ fl + digitsToNat fds
        let vnum : Nat := if eneg then baseNum else baseNum * 10 ^ e
        let vden : Nat := if eneg then 10 ^ fl * 10 ^ e else 10 ^ fl
        let inum : Int := if neg then -(vnum : Int) else (vnum : Int)
        some (mkRat inum vden, cs4)

mutual

/-- Parse one JSON value starting at the given (whitespace-free) position;
`fuel` bounds the recursion and is chosen large enough at the top level. -/
def parseValue : Nat → List Char → Option (JsonVal × List Char)
  | 0, _ => none
  | fuel + 1, cs =>
    match cs with
    | [] => none
    | c :: rest =>
      if c = lbrace then
        let rest1 := skipWs rest
        match rest1 with
        | c2 :: rest2 => if c2 = rbrace then some (.obj [], rest2) else parseValue.members fuel rest1 []
        | [] => none
      else if c = '[' then
        let rest1 := skipWs rest
        match rest1 with
        | c2 :: rest2 => if c2 = ']' then some (.arr [], rest2) else parseValue.elems fuel rest1 []
        | [] => none
      else if c = '"' then
        match parseStringBody rest ("") with
        | some (s, rest2) => some (.str s, rest2)
        | none => none
      else
        match cs with
        | 't' :: 'r' :: 'u' :: 'e' :: rest2 => some (.bool true, rest2)
        | 'f' :: 'a' :: 'l' :: 's' :: 'e' :: rest2 => some (.bool false, rest2)
        | 'n' :: 'u' :: 'l' :: 'l' :: rest2 => some (.null, rest2)
        | _ =>
          match parseNumberFrom cs with
          | some (q, rest2) => some (.num q, rest2)
          | none => none

/-- Parse the members of a JSON object (input positioned at the first key);
duplicate keys follow JavaScript semantics via `objAssign` (last value wins,
first position kept). -/
def parseValue.members : Nat → List Char → List (String × JsonVal) → Option (JsonVal × List Char)
  | 0, _, _ => none
  | fuel + 1, cs, acc =>
    match cs with
    | '"' :: rest =>
      match parseStringBody rest ("") with
      | none => none
      | some (key, rest2) =>
        match skipWs rest2 with
        | ':' :: rest3 =>
          match parseValue fuel (skipWs rest3) with
          | none => none
          | some (v, rest4) =>
            let acc2 := objAssign acc key v
            match skipWs rest4 with
            | c5 :: rest5 =>
              if c5 = ',' then parseValue.members fuel (skipWs rest5) acc2
              else if c5 = rbrace then some (.obj acc2, rest5)
              else none
            | [] => none
        | _ => none
    | _ => none

/-- Parse the elements of a JSON array (input positioned at the first
element). -/
def parseValue.elems : Nat → List Char → List JsonVal → Option (JsonVal × List Char)
  | 0, _, _ => none
  | fuel + 1, cs, acc =>
    match parseValue fuel cs with
    | none => none
    | some (v, rest) =>
      match skipWs rest with
      | ',' :: rest2 => parseValue.elems fuel (skipWs rest2) (acc ++ [v])
      | ']' :: rest2 => some (.arr (acc ++ [v]), rest2)
      | _ => none

end

/-- The embedding of JavaScript's `JSON.parse`: parse one value surrounded by
optional whitespace and require the whole input to be consumed; `none` models
a thrown SyntaxError. -/
def jsonParse (s : String) : Option JsonVal :=
  match parseValue (2 * s.length + 2) (skipWs s.data) with
  | some (v, rest) => if skipWs rest = [] then some v else none
  | none => none

/-- The normalized request (`ResearchConfig` in `src/types.ts`).  The
`provider` field is a string (the TypeScript union of string literals) so the
runtime dispatch on it can be stated for any value; `temperature` is optional
(`undefined` modelled as `none`); numbers are rationals. -/
structure ResearchConfig where
  apiKey : String
  provider : String
  model : String
  temperature : Option Rat
  query : String
  maxDepth : Int
  maxBranches : Int

/-- A thrown JavaScript value as observed by the adapter's catch blocks: an
optional nested `error.message` string and an optional top-level `message`
string (`none` models an absent/undefined field). -/
structure ThrownValue where
  errorMessage : Option String
  message : Option String
deriving DecidableEq

/-- The plain `new Error(msg)` value: a `message`, no nested error object. -/
def mkError (msg : String) : ThrownValue := { errorMessage := none, message := some msg }

/-- JavaScript `a || d` on an optionally-present string: an absent or empty
(falsy) string yields the default. -/
def jsOrString : Option String → String → String
  | none, d => d
  | some s, d => if s = "" then d else s

/-- JavaScript `a || d` on an optionally-present number: an absent or zero
(falsy) value yields the default. -/
def jsOrRat : Option Rat → Rat → Rat
  | none, d => d
  | some x, d => if x = 0 then d else x

/-- One chat message of the OpenAI request. -/
structure ChatMessage where
  role : String
  content : String
deriving DecidableEq

/-- The function-call payload carried by an OpenAI choice message. -/
structure FunctionCall where
  name : String
  arguments : String
deriving DecidableEq

/-- The message of one OpenAI completion choice. -/
structure OpenAIChoiceMessage where
  function_call : Option FunctionCall
deriving DecidableEq

/-- One OpenAI completion choice. -/
structure OpenAIChoice where
  message : OpenAIChoiceMessage
deriving DecidableEq

/-- The OpenAI completion response (the part the adapter reads). -/
structure OpenAIResponse where
  choices : List OpenAIChoice
deriving DecidableEq

/-- The fixed OpenAI system instruction. -/
def systemPromptOpenAI : String :=
  "You are a research assistant. Analyze the query deeply and provide a comprehensive answer with follow-up questions for deeper exploration."

/-- The declared function schema forced on the OpenAI call, as a JSON value:
one function `provide_research_response` with the three required parameters. -/
def openAIFunctionSchemas : JsonVal :=
  .arr [.obj [(("name" : String), JsonVal.str ("provide_research_response")),
              (("parameters" : String), JsonVal.obj
                [(("type" : String), JsonVal.str ("object")),
                 (("properties" : String), JsonVal.obj
                   [(("answer" : String), JsonVal.obj [(("type" : String), JsonVal.str ("string"))]),
                    (("followUpQuestions" : String), JsonVal.obj
                      [(("type" : String), JsonVal.str ("array")),
                       (("items" : String), JsonVal.obj [(("type" : String), JsonVal.str ("string"))])]),
                    (("confidence" : String), JsonVal.obj [(("type" : String), JsonVal.str ("number"))])]),
                 (("required" : String), JsonVal.arr
                   [JsonVal.str ("answer"), JsonVal.str ("followUpQuestions"), JsonVal.str ("confidence")])])]]

/-- The outbound OpenAI chat-completion request built from a config. -/
structure OpenAIRequest where
  apiKey : String
  model : String
  messages : List ChatMessage
  functions : JsonVal
  function_call : String

/-- Build the OpenAI request exactly as `performOpenAIResearch` does: the
model falls back to the dated GPT-4 preview identifier when `config.model`
is falsy (the empty string), the two-message turn carries the fixed system
instruction and the user query, and the function call is forced. -/
def openAIRequest (c : ResearchConfig) : OpenAIRequest :=
  { apiKey := c.apiKey
    model := if c.model = "" then "gpt-4-0125-preview" else c.model
    messages := [{ role := "system", content := systemPromptOpenAI },
                 { role := "user", content := c.query }]
    functions := openAIFunctionSchemas
    function_call := "provide_research_response" }

/-- Gemini generation parameters. -/
structure GenerationConfig where
  temperature : Rat
  topP : Rat
  topK : Nat
deriving DecidableEq

/-- One Gemini safety setting. -/
structure SafetySetting where
  category : String
  threshold : String
deriving DecidableEq

/-- The four safety-category thresholds set by the Gemini path. -/
def geminiSafetySettings : List SafetySetting :=
  [{ category := "HARM_CATEGORY_HARASSMENT", threshold := "BLOCK_MEDIUM_AND_ABOVE" },
   { category := "HARM_CATEGORY_HATE_SPEECH", threshold := "BLOCK_MEDIUM_AND_ABOVE" },
   { category := "HARM_CATEGORY_SEXUALLY_EXPLICIT", threshold := "BLOCK_MEDIUM_AND_ABOVE" },
   { category := "HARM_CATEGORY_DANGEROUS_CONTENT", threshold := "BLOCK_MEDIUM_AND_ABOVE" }]

/-- The Gemini generation parameters built from a config: the temperature is
`config.temperature || 0.7` under JavaScript falsiness (`mkRat 7 10` is 0.7),
top-p 0.95 (`mkRat 19 20`), top-k 40. -/
def geminiGenerationConfig (c : ResearchConfig) : GenerationConfig :=
  { temperature := jsOrRat c.temperature (mkRat 7 10), topP := mkRat 19 20, topK := 40 }

/-- The textual Gemini system prompt (instructing a pure-JSON reply). -/
def systemPromptGemini : String :=
  "You are a research assistant. Your task is to:\n1. Analyze the query deeply\n2. Provide a comprehensive answer\n3. Generate relevant follow-up questions\n4. Format your response as JSON with this structure:\n\x7b\n  \"answer\": \"your detailed answer\",\n  \"followUpQuestions\": [\"question 1\", \"question 2\", \"question 3\"],\n  \"confidence\": 0.95\n\x7d"

/-- The outbound Gemini generate-content request built from a config. -/
structure GeminiRequest where
  apiKey : String
  model : String
  prompt : String
  generationConfig : GenerationConfig
  safetySettings : List SafetySetting

/-- Build the Gemini request exactly as `performGeminiResearch` does: model
falls back to `gemini-pro` when falsy, one concatenated prompt, fixed
generation parameters and safety settings. -/
def geminiRequest (c : ResearchConfig) : GeminiRequest :=
  { apiKey := c.apiKey
    model := if c.model = "" then "gemini-pro" else c.model
    prompt := systemPromptGemini ++ "\n\nQuery: " ++ c.query
    generationConfig := geminiGenerationConfig c
    safetySettings := geminiSafetySettings }

/-- The thrown value for reading `.message` of `choices[0]` when the choices
array is empty (a JavaScript TypeError). -/
def typeErrorChoicesEmpty : ThrownValue :=
  { errorMessage := none, message := some ("Cannot read properties of undefined (reading 'message')") }

/-- The OpenAI path of the adapter.  The network call is an environment
function from the built request to either a response or a thrown value.
Mirrors `performOpenAIResearch`: extract `choices[0].message.function_call`;
absent means `new Error("No response received from the model")`; otherwise
`JSON.parse` the arguments, a parse failure means
`new Error("Failed to parse model response")`, and success returns the
object literal with `query` first and the parsed value spread over it. -/
def performOpenAIResearch (c : ResearchConfig)
    (call : OpenAIRequest → Except ThrownValue OpenAIResponse) :
    Except ThrownValue (List (String × JsonVal)) :=
  match call (openAIRequest c) with
  | .error e => .error e
  | .ok resp =>
    match resp.choices.head? with
    | none => .error typeErrorChoicesEmpty
    | some choice =>
      match choice.message.function_call with
      | none => .error (mkError ("No response received from the model"))
      | some fc =>
        match jsonParse fc.arguments with
        | none => .error (mkError ("Failed to parse model response"))
        | some parsed => .ok (buildResult c.query parsed)

/-- The Gemini path of the adapter.  The network call (generate-content plus
reading the text body) is an environment function from the built request to
either the text or a thrown value.  Mirrors `performGeminiResearch`: every
failure inside the try block — including the adapter's own
`new Error("Failed to parse Gemini response. The model did not return valid JSON.")`
on a `JSON.parse` failure — is re-thrown by the inner catch as
`new Error("Gemini API Error: " + error.message)` (an absent message
interpolates as the string `undefined`). -/
def performGeminiResearch (c : ResearchConfig)
    (call : GeminiRequest → Except ThrownValue String) :
    Except ThrownValue (List (String × JsonVal)) :=
  match call (geminiRequest c) with
  | .error e => .error (mkError ("Gemini API Error: " ++ jsOrString e.message ("undefined")))
  | .ok text =>
    match jsonParse text with
    | none => .error (mkError ("Gemini API Error: Failed to parse Gemini response. The model did not return valid JSON."))
    | some parsed => .ok (buildResult c.query parsed)

/-- The top-level catch of `performResearch`: a successful result passes
through; a thrown value is re-thrown as
`new Error("API Error: " + (error.error?.message || error.message || 'Unknown error occurred'))`. -/
def wrapOuter (inner : Except ThrownValue (List (String × JsonVal))) :
    Except ThrownValue (List (String × JsonVal)) :=
  match inner with
  | .ok r => .ok r
  | .error e =>
    .error (mkError ("API Error: " ++ jsOrString e.errorMessage (jsOrString e.message ("Unknown error occurred"))))

/-- The public entry point `performResearch`: dispatch on
`config.provider === 'openai'` (any other value takes the Gemini path) inside
the top-level try/catch. -/
def performResearch (c : ResearchConfig)
    (openaiCall : OpenAIRequest → Except ThrownValue OpenAIResponse)
    (geminiCall : GeminiRequest → Except ThrownValue String) :
    Except ThrownValue (List (String × JsonVal)) :=
  wrapOuter (if c.provider == "openai" then performOpenAIResearch c openaiCall
             else performGeminiResearch c geminiCall)

/-- The constant OpenAI provider environment: every request gets the same
outcome. -/
def constOpenAI (r : Except ThrownValue OpenAIResponse) :
    OpenAIRequest → Except ThrownValue OpenAIResponse := fun _ => r

/-- The constant Gemini provider environment: every request gets the same
outcome. -/
def constGemini (r : Except ThrownValue String) :
    GeminiRequest → Except ThrownValue String := fun _ => r

/-- The OpenAI response whose single choice carries a function call with the
given arguments string. -/
def respWithArgs (args : String) : OpenAIResponse :=
  { choices := [{ message := { function_call := some { name := "provide_research_response", arguments := args } } }] }

/-- A sample config (used to instantiate theorems at concrete inputs). -/
def sampleConfig (prov : String) : ResearchConfig :=
  { apiKey := "k", provider := prov, model := "", temperature := none,
    query := "q", maxDepth := 3, maxBranches := 3 }

/-- A provider environment that always fails with a plain error. -/
def ocErrW : OpenAIRequest → Except ThrownValue OpenAIResponse :=
  constOpenAI (.error (mkError ("boom")))

/-- A Gemini environment that always fails with a plain error. -/
def gcErrW : GeminiRequest → Except ThrownValue String :=
  constGemini (.error (mkError ("boom")))

theorem jsLookup_map_assign (l : List (String × JsonVal)) (k key : String) (v : JsonVal)
    (hk : (k == key) = false) :
    jsLookup (l.map (fun p => if p.1 == k then (k, v) else p)) key = jsLookup l key := by
  induction l with
  | nil => rfl
  | cons p ps ih =>
    by_cases hp : (p.1 == k) = true
    · have hpk : p.1 = k := eq_of_beq hp
      have hpkey : (p.1 == key) = false := by rw [hpk]; exact hk
      simp only [List.map_cons, hp, if_true, jsLookup, hk, hpkey, Bool.false_eq_true, if_false]
      exact ih
    · simp only [List.map_cons, hp, Bool.false_eq_true, if_false, jsLookup]
      by_cases hq : (p.1 == key) = true
      · simp [hq]
      · simp only [hq, Bool.false_eq_true, if_false]
        exact ih

theorem jsLookup_append_single (l : List (String × JsonVal)) (k key : String) (v : JsonVal)
    (hk : (k == key) = false) :
    jsLookup (l ++ [(k, v)]) key = jsLookup l key := by
  induction l with
  | nil => simp [jsLookup, hk]
  | cons p ps ih =>
    by_cases hp : (p.1 == key) = true
    · simp [jsLookup, hp]
    · simp only [List.cons_append, jsLookup, hp, Bool.false_eq_true, if_false]
      exact ih

theorem jsLookup_objAssign_of_ne (base : List (String × JsonVal)) (k key : String) (v : JsonVal)
    (hk : (k == key) = false) :
    jsLookup (objAssign base k v) key = jsLookup base key := by
  unfold objAssign
  by_cases hmem : base.any (fun p => p.1 == k) = true
  · rw [if_pos hmem]
    exact jsLookup_map_assign base k key v hk
  · rw [if_neg hmem]
    exact jsLookup_append_single base k key v hk

theorem jsLookup_spread_of_no_key (ps : List (String × JsonVal)) (key : String) :
    ∀ base, ps.any (fun p => p.1 == key) = false →
      jsLookup (ps.foldl (fun acc p => objAssign acc p.1 p.2) base) key = jsLookup base key := by
  induction ps with
  | nil => intro base _; rfl
  | cons p ps ih =>
    intro base h
    have h1 : (p.1 == key) = false := by
      by_contra hc
      simp only [List.any_cons, Bool.or_eq_false_iff] at h
      exact hc h.1
    have h2 : ps.any (fun p => p.1 == key) = false := by
      simp only [List.any_cons, Bool.or_eq_false_iff] at h
      exact h.2
    simp only [List.foldl_cons]
    rw [ih _ h2, jsLookup_objAssign_of_ne _ _ _ _ h1]

theorem buildResult_query_of_no_key (q : String) (j : JsonVal)
    (h : (spreadPairs j).any (fun p => p.1 == "query") = false) :
    jsLookup (buildResult q j) ("query") = some (JsonVal.str q) := by
  unfold buildResult
  rw [jsLookup_spread_of_no_key _ _ _ h]
  rfl

theorem performResearch_ok_of_parse (c : ResearchConfig) (text : String) (j : JsonVal)
    (hp : jsonParse text = some j) :
    performResearch c (constOpenAI (.ok (respWithArgs text))) (constGemini (.ok text))
      = .ok (buildResult c.query j) := by
  have hO : performOpenAIResearch c (constOpenAI (.ok (respWithArgs text)))
      = .ok (buildResult c.query j) := by
    simp only [performOpenAIResearch, constOpenAI, respWithArgs, List.head?, hp]
  have hG : performGeminiResearch c (constGemini (.ok text))
      = .ok (buildResult c.query j) := by
    simp only [performGeminiResearch, constGemini, hp]
  unfold performResearch
  by_cases hpv : (c.provider == "openai") = true
  · rw [if_pos hpv, hO]; rfl
  · rw [if_neg hpv, hG]; rfl

/-- A model payload that itself carries a `query` key. -/
def modelJsonWithQuery : String := "\x7b\"query\":\"evil\"\x7d"

/-- C1 counterexample: the claim says the config's query always wins over a
`query` key in the model's parsed JSON, but the source spreads the parsed
object AFTER assigning `query`, so the model's value overwrites it: with
config query `q` and model payload containing `query: "evil"`, the resolved
result's `query` is `evil`, not `q`. -/
theorem researchQuery_overridden_by_model_json :
    performResearch (sampleConfig ("openai")) (constOpenAI (.ok (respWithArgs modelJsonWithQuery))) gcErrW
      = .ok [(("query" : String), JsonVal.str ("evil"))]
    ∧ (sampleConfig ("openai")).query = "q"
    ∧ ("evil" : String) ≠ "q" :=
  ⟨rfl, rfl, by decide⟩

/-- C1 (amended): for every config and every provider payload that parses as
JSON, the resolved result's `query` field equals the config's query WHENEVER
the parsed payload contributes no own `query` key; when the model's JSON does
carry a `query` key, that value overwrites the config's (the spread is
written after the explicit assignment). -/
theorem researchQuery_echo_without_model_query_key (c : ResearchConfig) (text : String) (j : JsonVal)
    (hp : jsonParse text = some j)
    (hq : (spreadPairs j).any (fun p => p.1 == "query") = false) :
    performResearch c (constOpenAI (.ok (respWithArgs text))) (constGemini (.ok text))
      = .ok (buildResult c.query j)
    ∧ jsLookup (buildResult c.query j) ("query") = some (JsonVal.str c.query) :=
  ⟨performResearch_ok_of_parse c text j hp, buildResult_query_of_no_key c.query j hq⟩

/-- A well-formed model payload without a `query` key. -/
def jsonTextPlain : String := "\x7b\"answer\":\"a\"\x7d"

/-- C1 witness: the amended echo theorem instantiated at a concrete config
and the concrete payload without a `query` key. -/
theorem researchQuery_echo_witness :
    performResearch (sampleConfig ("gemini")) (constOpenAI (.ok (respWithArgs jsonTextPlain))) (constGemini (.ok jsonTextPlain))
      = .ok (buildResult (sampleConfig ("gemini")).query (JsonVal.obj [(("answer" : String), JsonVal.str ("a"))]))
    ∧ jsLookup (buildResult (sampleConfig ("gemini")).query (JsonVal.obj [(("answer" : String), JsonVal.str ("a"))])) ("query")
      = some (JsonVal.str (sampleConfig ("gemini")).query) :=
  researchQuery_echo_without_model_query_key (sampleConfig ("gemini")) jsonTextPlain
    (JsonVal.obj [(("answer" : String), JsonVal.str ("a"))]) (by rfl) (by rfl)

/-- A config that explicitly provides temperature 0. -/
def cfgTempZero : ResearchConfig := { sampleConfig ("gemini") with temperature := some 0 }

/-- C2 counterexample: the claim says a provided temperature in [0,1],
including 0, is forwarded unchanged, but the source computes
`config.temperature || 0.7`, and JavaScript treats 0 as falsy: a provided 0
is replaced by the 0.7 default in the generation parameters. -/
theorem temperature_zero_replaced_by_default :
    (geminiRequest cfgTempZero).generationConfig.temperature = mkRat 7 10
    ∧ cfgTempZero.temperature = some 0
    ∧ (mkRat 7 10 : Rat) = 7/10
    ∧ (mkRat 7 10 : Rat) ≠ 0 :=
  ⟨rfl, rfl, by norm_num [Rat.mkRat_eq_div], by norm_num [Rat.mkRat_eq_div]⟩

/-- C2 (amended): a provided NONZERO temperature is forwarded unchanged to
the Gemini generation parameters; when the temperature is absent OR equal to
0 (both falsy under the JavaScript `||` used by the source), 0.7 is used. -/
theorem temperature_forwarding_amended (c : ResearchConfig) :
    (∀ t : Rat, c.temperature = some t → t ≠ 0 →
      (geminiRequest c).generationConfig.temperature = t)
    ∧ (c.temperature = none → (geminiRequest c).generationConfig.temperature = mkRat 7 10)
    ∧ (c.temperature = some 0 → (geminiRequest c).generationConfig.temperature = mkRat 7 10) := by
  refine ⟨?_, ?_, ?_⟩
  · intro t ht hnz
    simp [geminiRequest, geminiGenerationConfig, jsOrRat, ht, hnz]
  · intro h
    simp [geminiRequest, geminiGenerationConfig, jsOrRat, h]
  · intro h
    simp [geminiRequest, geminiGenerationConfig, jsOrRat, h]

/-- A config that provides the nonzero temperature 1. -/
def cfgTempOne : ResearchConfig := { sampleConfig ("gemini") with temperature := some 1 }

/-- C2 witness: the amended forwarding theorem instantiated at a concrete
config with the nonzero temperature 1, which is forwarded unchanged. -/
theorem temperature_forwarding_witness :
    (geminiRequest cfgTempOne).generationConfig.temperature = 1 :=
  (temperature_forwarding_amended cfgTempOne).1 1 rfl one_ne_zero

/-- C3: on the Gemini path (any provider value other than `openai`), when the
text body is not valid JSON, `performResearch` rejects with the
double-wrapped message `API Error: Gemini API Error: Failed to parse Gemini
response. The model did not return valid JSON.` — the inner Gemini-specific
catch message re-wrapped by the outer top-level catch. -/
theorem gemini_invalid_json_double_wrapped (c : ResearchConfig)
    (oc : OpenAIRequest → Except ThrownValue OpenAIResponse) (text : String)
    (hprov : c.provider ≠ "openai") (hj : jsonParse text = none) :
    performResearch c oc (constGemini (.ok text))
      = .error (mkError ("API Error: Gemini API Error: Failed to parse Gemini response. The model did not return valid JSON.")) := by
  unfold performResearch
  rw [if_neg (fun hh => hprov (eq_of_beq hh))]
  simp only [performGeminiResearch, constGemini, hj]
  rfl

/-- A Gemini text body wrapping JSON in a markdown fence (not valid JSON). -/
def fencedText : String := "```json\n\x7b\"answer\":\"x\"\x7d\n```"

/-- C3 witness: the double-wrapping theorem instantiated at a concrete
config and a markdown-fenced text body. -/
theorem gemini_invalid_json_double_wrapped_witness :
    performResearch (sampleConfig ("gemini")) ocErrW (constGemini (.ok fencedText))
      = .error (mkError ("API Error: Gemini API Error: Failed to parse Gemini response. The model did not return valid JSON.")) :=
  gemini_invalid_json_double_wrapped (sampleConfig ("gemini")) ocErrW fencedText (by decide) (by rfl)

/-- C4: on the OpenAI path, when the first choice message carries no
function call, `performResearch` rejects with
`API Error: No response received from the model`. -/
theorem openai_missing_function_call_error (c : ResearchConfig)
    (gc : GeminiRequest → Except ThrownValue String)
    (resp : OpenAIResponse) (choice : OpenAIChoice)
    (hprov : c.provider = "openai")
    (hhead : resp.choices.head? = some choice)
    (hfc : choice.message.function_call = none) :
    performResearch c (constOpenAI (.ok resp)) gc
      = .error (mkError ("API Error: No response received from the model")) := by
  unfold performResearch
  rw [if_pos (by rw [hprov]; rfl)]
  simp only [performOpenAIResearch, constOpenAI, hhead, hfc]
  rfl

/-- An OpenAI response whose single choice has no function call. -/
def respNoCall : OpenAIResponse := { choices := [{ message := { function_call := none } }] }

/-- C4 witness: the missing-function-call theorem instantiated at a concrete
config and response. -/
theorem openai_missing_function_call_witness :
    performResearch (sampleConfig ("openai")) (constOpenAI (.ok respNoCall)) gcErrW
      = .error (mkError ("API Error: No response received from the model")) :=
  openai_missing_function_call_error (sampleConfig ("openai")) gcErrW respNoCall
    { message := { function_call := none } } rfl rfl rfl

/-- C5: on the OpenAI path, when a function call is present but its
`arguments` string is not valid JSON, `performResearch` rejects with
`API Error: Failed to parse model response` (and in particular does not
resolve with a result). -/
theorem openai_unparsable_arguments_error (c : ResearchConfig)
    (gc : GeminiRequest → Except ThrownValue String)
    (resp : OpenAIResponse) (choice : OpenAIChoice) (fc : FunctionCall)
    (hprov : c.provider = "openai")
    (hhead : resp.choices.head? = some choice)
    (hfc : choice.message.function_call = some fc)
    (hj : jsonParse fc.arguments = none) :
    performResearch c (constOpenAI (.ok resp)) gc
      = .error (mkError ("API Error: Failed to parse model response")) := by
  unfold performResearch
  rw [if_pos (by rw [hprov]; rfl)]
  simp only [performOpenAIResearch, constOpenAI, hhead, hfc, hj]
  rfl

/-- C5 witness: the unparsable-arguments theorem instantiated at a concrete
config and a function call whose arguments are not JSON. -/
theorem openai_unparsable_arguments_witness :
    performResearch (sampleConfig ("openai"))
      (constOpenAI (.ok (respWithArgs ("oops not json")))) gcErrW
      = .error (mkError ("API Error: Failed to parse model response")) :=
  openai_unparsable_arguments_error (sampleConfig ("openai")) gcErrW
    (respWithArgs ("oops not json"))
    { message := { function_call := some { name := "provide_research_response", arguments := "oops not json" } } }
    { name := "provide_research_response", arguments := "oops not json" }
    rfl rfl rfl (by rfl)

/-- The exact Gemini text body of the C6 scenario. -/
def geminiJsonExact : String := "\x7b\"answer\":\"x\",\"followUpQuestions\":[\"y\"],\"confidence\":0.9\x7d"

/-- C6: on the Gemini path, when the text body is exactly
`\x7b"answer":"x","followUpQuestions":["y"],"confidence":0.9\x7d`,
`performResearch` resolves to the result with `query` equal to the config's
query, `answer` the string `x`, `followUpQuestions` the one-element list
`y`, and `confidence` 0.9 (`mkRat 9 10`, shown equal to `9/10`). -/
theorem gemini_exact_json_resolves (c : ResearchConfig)
    (oc : OpenAIRequest → Except ThrownValue OpenAIResponse)
    (hprov : c.provider ≠ "openai") :
    performResearch c oc (constGemini (.ok geminiJsonExact))
      = .ok [(("query" : String), JsonVal.str c.query),
             (("answer" : String), JsonVal.str ("x")),
             (("followUpQuestions" : String), JsonVal.arr [JsonVal.str ("y")]),
             (("confidence" : String), JsonVal.num (mkRat 9 10))]
    ∧ (mkRat 9 10 : Rat) = 9/10 := by
  constructor
  · unfold performResearch
    rw [if_neg (fun hh => hprov (eq_of_beq hh))]
    simp only [performGeminiResearch, constGemini]
    rfl
  · norm_num [Rat.mkRat_eq_div]

/-- C6 witness: the exact-payload theorem instantiated at a concrete config
with provider `gemini` and query `q`. -/
theorem gemini_exact_json_resolves_witness :
    performResearch (sampleConfig ("gemini")) ocErrW (constGemini (.ok geminiJsonExact))
      = .ok [(("query" : String), JsonVal.str (sampleConfig ("gemini")).query),
             (("answer" : String), JsonVal.str ("x")),
             (("followUpQuestions" : String), JsonVal.arr [JsonVal.str ("y")]),
             (("confidence" : String), JsonVal.num (mkRat 9 10))]
    ∧ (mkRat 9 10 : Rat) = 9/10 :=
  gemini_exact_json_resolves (sampleConfig ("gemini")) ocErrW (by decide)

/-- C7: `performResearch` dispatches as a two-way branch on the provider
string: exactly `openai` takes the OpenAI path; every other value (including
`gemini`) takes the Gemini path; in both cases the chosen path's outcome is
wrapped by the top-level catch. -/
theorem provider_dispatch_two_way (c : ResearchConfig)
    (oc : OpenAIRequest → Except ThrownValue OpenAIResponse)
    (gc : GeminiRequest → Except ThrownValue String) :
    (c.provider = "openai" → performResearch c oc gc = wrapOuter (performOpenAIResearch c oc))
    ∧ (c.provider ≠ "openai" → performResearch c oc gc = wrapOuter (performGeminiResearch c gc)) := by
  constructor
  · intro h
    unfold performResearch
    rw [if_pos (by rw [h]; rfl)]
  · intro h
    unfold performResearch
    rw [if_neg (fun hh => h (eq_of_beq hh))]

/-- C7 witness: the dispatch theorem instantiated at a concrete config with
the non-`openai` provider value `gemini`, which takes the Gemini path. -/
theorem provider_dispatch_two_way_witness :
    performResearch (sampleConfig ("gemini")) ocErrW gcErrW
      = wrapOuter (performGeminiResearch (sampleConfig ("gemini")) gcErrW) :=
  (provider_dispatch_two_way (sampleConfig ("gemini")) ocErrW gcErrW).2 (by decide)

/-- C8: `maxDepth` and `maxBranches` drive no behavior: two configs equal in
every other field produce identical outbound OpenAI and Gemini requests and,
for every provider behavior, identical `performResearch` outcomes. -/
theorem maxDepth_maxBranches_unused (c1 c2 : ResearchConfig)
    (hA : c1.apiKey = c2.apiKey) (hP : c1.provider = c2.provider)
    (hM : c1.model = c2.model) (hT : c1.temperature = c2.temperature)
    (hQ : c1.query = c2.query) :
    openAIRequest c1 = openAIRequest c2 ∧ geminiRequest c1 = geminiRequest c2
      ∧ ∀ oc gc, performResearch c1 oc gc = performResearch c2 oc gc := by
  refine ⟨?_, ?_, ?_⟩
  · unfold openAIRequest
    rw [hA, hM, hQ]
  · unfold geminiRequest geminiGenerationConfig
    rw [hA, hM, hQ, hT]
  · intro oc gc
    unfold performResearch performOpenAIResearch performGeminiResearch openAIRequest geminiRequest geminiGenerationConfig
    rw [hP, hA, hM, hQ, hT]

/-- A config identical to `sampleConfig "openai"` except for `maxDepth` and
`maxBranches`. -/
def cfgDeep : ResearchConfig := { sampleConfig ("openai") with maxDepth := 5, maxBranches := 1 }

/-- C8 witness: the dead-configuration theorem instantiated at two concrete
configs differing only in `maxDepth` and `maxBranches`, with a concrete
provider behavior. -/
theorem maxDepth_maxBranches_unused_witness :
    openAIRequest (sampleConfig ("openai")) = openAIRequest cfgDeep
    ∧ geminiRequest (sampleConfig ("openai")) = geminiRequest cfgDeep
    ∧ performResearch (sampleConfig ("openai")) ocErrW gcErrW = performResearch cfgDeep ocErrW gcErrW :=
  ⟨(maxDepth_maxBranches_unused (sampleConfig ("openai")) cfgDeep rfl rfl rfl rfl rfl).1,
   (maxDepth_maxBranches_unused (sampleConfig ("openai")) cfgDeep rfl rfl rfl rfl rfl).2.1,
   (maxDepth_maxBranches_unused (sampleConfig ("openai")) cfgDeep rfl rfl rfl rfl rfl).2.2 ocErrW gcErrW⟩

/-- The text body of an empty JSON object. -/
def emptyObjText : String := "\x7b\x7d"

/-- C9: no shape validation is performed on the decoded payload: any JSON
payload whatsoever resolves on both paths to the spread result, and an empty
object yields a result whose `answer`, `followUpQuestions` and `confidence`
properties are simply absent (no rejection). -/
theorem no_shape_validation_resolves (c : ResearchConfig) (text : String) (j : JsonVal)
    (hp : jsonParse text = some j) :
    performResearch { c with provider := "openai" } (constOpenAI (.ok (respWithArgs text))) (constGemini (.ok text))
      = .ok (buildResult c.query j)
    ∧ performResearch { c with provider := "gemini" } (constOpenAI (.ok (respWithArgs text))) (constGemini (.ok text))
      = .ok (buildResult c.query j)
    ∧ jsLookup (buildResult c.query (JsonVal.obj [])) ("answer") = none
    ∧ jsLookup (buildResult c.query (JsonVal.obj [])) ("followUpQuestions") = none
    ∧ jsLookup (buildResult c.query (JsonVal.obj [])) ("confidence") = none := by
  refine ⟨?_, ?_, rfl, rfl, rfl⟩
  · exact performResearch_ok_of_parse _ text j hp
  · exact performResearch_ok_of_parse _ text j hp

/-- C9 witness: the no-validation theorem instantiated at a concrete config
and the concrete empty-object payload. -/
theorem no_shape_validation_witness :
    performResearch { sampleConfig ("gemini") with provider := "openai" }
        (constOpenAI (.ok (respWithArgs emptyObjText))) (constGemini (.ok emptyObjText))
      = .ok (buildResult (sampleConfig ("gemini")).query (JsonVal.obj []))
    ∧ performResearch { sampleConfig ("gemini") with provider := "gemini" }
        (constOpenAI (.ok (respWithArgs emptyObjText))) (constGemini (.ok emptyObjText))
      = .ok (buildResult (sampleConfig ("gemini")).query (JsonVal.obj []))
    ∧ jsLookup (buildResult (sampleConfig ("gemini")).query (JsonVal.obj [])) ("answer") = none
    ∧ jsLookup (buildResult (sampleConfig ("gemini")).query (JsonVal.obj [])) ("followUpQuestions") = none
    ∧ jsLookup (buildResult (sampleConfig ("gemini")).query (JsonVal.obj [])) ("confidence") = none :=
  no_shape_validation_resolves (sampleConfig ("gemini")) emptyObjText (JsonVal.obj []) (by rfl)

/-- A thrown value whose nested `error.message` exists but is the empty
string, with a nonempty top-level `message`. -/
def thrownNestedEmpty : ThrownValue := { errorMessage := some (""), message := some ("boom") }

/-- C10 counterexample: the claim says an existing nested `error.message`
takes precedence over the top-level `message`, but the source uses
JavaScript `||`, under which an EMPTY nested message is falsy and falls
through: with nested message the empty string and top-level message `boom`,
the rejection is `API Error: boom`, not `API Error: ` as precedence of the
existing nested field would give. -/
theorem nested_empty_message_no_precedence :
    performResearch (sampleConfig ("openai")) (constOpenAI (.error thrownNestedEmpty)) gcErrW
      = .error (mkError ("API Error: boom"))
    ∧ mkError ("API Error: boom") ≠ mkError ("API Error: ") :=
  ⟨rfl, by decide⟩

/-- C10 (amended): when the provider path throws a value with neither a
nested `error.message` nor a top-level `message`, the rejection message is
exactly `API Error: Unknown error occurred`; a nested `error.message` takes
precedence only when it is a nonempty string; when the nested message is the
empty string (falsy), a nonempty top-level `message` is used instead. -/
theorem error_message_extraction_amended (c : ResearchConfig) (e : ThrownValue)
    (gc : GeminiRequest → Except ThrownValue String) (hprov : c.provider = "openai") :
    (e.errorMessage = none → e.message = none →
      performResearch c (constOpenAI (.error e)) gc = .error (mkError ("API Error: Unknown error occurred")))
    ∧ (∀ m, e.errorMessage = some m → m ≠ "" →
      performResearch c (constOpenAI (.error e)) gc = .error (mkError ("API Error: " ++ m)))
    ∧ (∀ m, e.errorMessage = some ("") → e.message = some m → m ≠ "" →
      performResearch c (constOpenAI (.error e)) gc = .error (mkError ("API Error: " ++ m))) := by
  have hbase : performResearch c (constOpenAI (.error e)) gc = wrapOuter (.error e) := by
    unfold performResearch
    rw [if_pos (by rw [hprov]; rfl)]
    rfl
  refine ⟨?_, ?_, ?_⟩
  · intro h1 h2
    rw [hbase]
    simp [wrapOuter, jsOrString, h1, h2]
  · intro m h1 h2
    rw [hbase]
    simp [wrapOuter, jsOrString, h1, h2]
  · intro m h1 h2 h3
    rw [hbase]
    simp [wrapOuter, jsOrString, h1, h2, h3]

/-- A thrown value with neither a nested `error.message` nor a `message`. -/
def thrownBare : ThrownValue := { errorMessage := none, message := none }

/-- C10 witness: the amended extraction theorem instantiated at a concrete
config and a thrown value with neither message field. -/
theorem error_message_extraction_witness :
    performResearch (sampleConfig ("openai")) (constOpenAI (.error thrownBare)) gcErrW
      = .error (mkError ("API Error: Unknown error occurred")) :=
  (error_message_extraction_amended (sampleConfig ("openai")) thrownBare gcErrW rfl).1 rfl rfl
